import Mathlib

/-!
Verification of the Bali Nebula Services virtual machine.

This development embeds the bytecode codec of
src/utilities/BytecodeUtilities.js and the processor of
src/processor/VirtualMachine.js (with the INVOKE dispatch of
src/bvm/VirtualMachine.js for comparison) and proves or refutes the
frozen claims about them.

JavaScript numbers are modelled as Nat where the source only ever holds
16-bit instruction words, and as Int where the source counts down
(account balances, addresses).  JavaScript bitwise operators coerce to
32-bit integers; every value reaching them here is below 2^16, so the
Nat operators agree with the source.
-/

/- ================================================================
   Instruction type constants (bali-instruction-set/Types).

   The numeric values are pinned by the source itself: the dispatch in
   src/processor/VirtualMachine.js indexes a 32-entry handler table with
   (operation << 2) | modifier, and the table lists, in order,
   JUMP 0..3, PUSH HANDLER/ELEMENT/CODE, POP HANDLER/COMPONENT,
   LOAD VARIABLE/PARAMETER/DOCUMENT/MESSAGE,
   STORE VARIABLE/DRAFT/DOCUMENT/MESSAGE, INVOKE 0..3, EXECUTE 0..3,
   HANDLE EXCEPTION/RESULT.
   ================================================================ -/

namespace types

def JUMP : Nat := 0

def PUSH : Nat := 1

def POP : Nat := 2

def LOAD : Nat := 3

def STORE : Nat := 4

def INVOKE : Nat := 5

def EXECUTE : Nat := 6

def HANDLE : Nat := 7

def HANDLER : Nat := 0

def ELEMENT : Nat := 1

def CODE : Nat := 2

def COMPONENT : Nat := 1

def MESSAGE : Nat := 3

def EXCEPTION : Nat := 0

def RESULT : Nat := 1

end types

/- ================================================================
   src/utilities/BytecodeUtilities.js
   ================================================================ -/

/-- Private mask constant OPCODE_MASK = 0xE000. -/
def OPCODE_MASK : Nat := 0xE000

/-- Private mask constant MODCODE_MASK = 0x1800. -/
def MODCODE_MASK : Nat := 0x1800

/-- Private mask constant OPERAND_MASK = 0x07FF. -/
def OPERAND_MASK : Nat := 0x07FF

/-- exports.encodeInstruction: opcode is the operation shifted left 13 and
masked, modcode is the modifier shifted left 11 and masked, and the operand
is ORed in unmasked.  The JavaScript optional-argument default of 0 is made
explicit by callers. -/
def encodeInstruction (operation modifier operand : Nat) : Nat :=
  ((operation <<< 13) &&& OPCODE_MASK) ||| ((modifier <<< 11) &&& MODCODE_MASK) ||| operand

/-- exports.decodeOperation. -/
def decodeOperation (instruction : Nat) : Nat :=
  (instruction &&& OPCODE_MASK) >>> 13

/-- exports.decodeModifier. -/
def decodeModifier (instruction : Nat) : Nat :=
  (instruction &&& MODCODE_MASK) >>> 11

/-- exports.decodeOperand. -/
def decodeOperand (instruction : Nat) : Nat :=
  instruction &&& OPERAND_MASK

/-- exports.instructionIsValid, translated switch-by-switch from the source. -/
def instructionIsValid (instruction : Nat) : Bool :=
  let operation := decodeOperation instruction
  let modifier := decodeModifier instruction
  let operand := decodeOperand instruction
  if operation = types.JUMP then
    -- the SKIP INSTRUCTION is the only one allowed to have a zero operand
    -- and only if the modifier is also zero
    decide (operand > 0) || decide (modifier = 0)
  else if operation = types.PUSH then
    if modifier = types.HANDLER ∨ modifier = types.ELEMENT ∨ modifier = types.CODE then
      decide (operand > 0)
    else false
  else if operation = types.POP then
    if modifier = types.HANDLER ∨ modifier = types.COMPONENT then
      decide (operand = 0)
    else false
  else if operation = types.LOAD ∨ operation = types.STORE ∨
      operation = types.INVOKE ∨ operation = types.EXECUTE then
    decide (operand > 0)
  else if operation = types.HANDLE then
    if modifier = types.EXCEPTION ∨ modifier = types.RESULT then
      decide (operand = 0)
    else false
  else false

/- ================================================================
   Bit-level helper lemmas for the codec.
   ================================================================ -/

theorem shiftLeft_and_shiftLeft (a b k : Nat) :
    (a <<< k) &&& (b <<< k) = (a &&& b) <<< k := by
  apply Nat.eq_of_testBit_eq
  intro i
  simp only [Nat.testBit_and, Nat.testBit_shiftLeft]
  by_cases h : k ≤ i <;> simp [h]

theorem and_shifted_mask_shiftRight (x m k : Nat) :
    (x &&& (m <<< k)) >>> k = (x >>> k) &&& m := by
  apply Nat.eq_of_testBit_eq
  intro i
  simp only [Nat.testBit_and, Nat.testBit_shiftRight, Nat.testBit_shiftLeft]
  have h : k ≤ k + i := Nat.le_add_right k i
  simp [h, Nat.add_sub_cancel_left]

theorem decodeOperation_arith (x : Nat) : decodeOperation x = x / 8192 % 8 := by
  have hm : OPCODE_MASK = 7 <<< 13 := by decide
  rw [decodeOperation, hm, and_shifted_mask_shiftRight]
  have h7 : (7 : Nat) = 2 ^ 3 - 1 := by decide
  rw [h7, Nat.and_pow_two_sub_one_eq_mod, Nat.shiftRight_eq_div_pow]

theorem decodeModifier_arith (x : Nat) : decodeModifier x = x / 2048 % 4 := by
  have hm : MODCODE_MASK = 3 <<< 11 := by decide
  rw [decodeModifier, hm, and_shifted_mask_shiftRight]
  have h3 : (3 : Nat) = 2 ^ 2 - 1 := by decide
  rw [h3, Nat.and_pow_two_sub_one_eq_mod, Nat.shiftRight_eq_div_pow]

theorem decodeOperand_arith (x : Nat) : decodeOperand x = x % 2048 := by
  have hm : OPERAND_MASK = 2 ^ 11 - 1 := by decide
  rw [decodeOperand, hm, Nat.and_pow_two_sub_one_eq_mod]

theorem encodeInstruction_arith (op md operand : Nat) (h : operand < 2048) :
    encodeInstruction op md operand = op % 8 * 8192 + md % 4 * 2048 + operand := by
  have hA : (op <<< 13) &&& OPCODE_MASK = 2 ^ 13 * (op % 8) := by
    have hm : OPCODE_MASK = 7 <<< 13 := by decide
    rw [hm, shiftLeft_and_shiftLeft]
    have h7 : (7 : Nat) = 2 ^ 3 - 1 := by decide
    rw [h7, Nat.and_pow_two_sub_one_eq_mod, Nat.shiftLeft_eq]
    ring
  have hB : (md <<< 11) &&& MODCODE_MASK = md % 4 * 2048 := by
    have hm : MODCODE_MASK = 3 <<< 11 := by decide
    rw [hm, shiftLeft_and_shiftLeft]
    have h3 : (3 : Nat) = 2 ^ 2 - 1 := by decide
    rw [h3, Nat.and_pow_two_sub_one_eq_mod, Nat.shiftLeft_eq]
  have hAB : (2 ^ 13 * (op % 8)) ||| (md % 4 * 2048) = 2 ^ 13 * (op % 8) + md % 4 * 2048 := by
    rw [← Nat.mul_add_lt_is_or (b := md % 4 * 2048) (i := 13) (a := op % 8)]
    have : md % 4 < 4 := Nat.mod_lt _ (by decide)
    omega
  have hsum : 2 ^ 13 * (op % 8) + md % 4 * 2048 = 2 ^ 11 * (op % 8 * 4 + md % 4) := by ring
  have hC : (2 ^ 13 * (op % 8) + md % 4 * 2048) ||| operand
      = 2 ^ 13 * (op % 8) + md % 4 * 2048 + operand := by
    rw [hsum, ← Nat.mul_add_lt_is_or (b := operand) (i := 11) (a := op % 8 * 4 + md % 4) h]
  rw [encodeInstruction, hA, hB, hAB, hC]
  ring

theorem decode_encodeInstruction (op md operand : Nat)
    (hop : op < 8) (hmd : md < 4) (hoperand : operand < 2048) :
    decodeOperation (encodeInstruction op md operand) = op
    ∧ decodeModifier (encodeInstruction op md operand) = md
    ∧ decodeOperand (encodeInstruction op md operand) = operand := by
  rw [encodeInstruction_arith op md operand hoperand,
      decodeOperation_arith, decodeModifier_arith, decodeOperand_arith]
  refine ⟨?_, ?_, ?_⟩ <;> omega

/- ================================================================
   Claim C7.
   ================================================================ -/

/-- C7: for every operation in [0,7], modifier in [0,3] and operand in
[0,2047], decoding the word produced by encodeInstruction returns exactly
the original triple. -/
theorem c7_encode_decode_identity :
    ∀ op < 8, ∀ md < 4, ∀ operand < 2048,
      decodeOperation (encodeInstruction op md operand) = op
      ∧ decodeModifier (encodeInstruction op md operand) = md
      ∧ decodeOperand (encodeInstruction op md operand) = operand := by
  intro op hop md hmd operand hoperand
  exact decode_encodeInstruction op md operand hop hmd hoperand

/-- Witness for C7 at the concrete triple (6, 2, 1234). -/
theorem c7_encode_decode_identity_witness :
    decodeOperation (encodeInstruction 6 2 1234) = 6
    ∧ decodeModifier (encodeInstruction 6 2 1234) = 2
    ∧ decodeOperand (encodeInstruction 6 2 1234) = 1234 :=
  c7_encode_decode_identity 6 (by decide) 2 (by decide) 1234 (by decide)

/- ================================================================
   Claim C10.
   ================================================================ -/

/-- C10: the encoder masks the shifted operation and modifier but ORs the
operand in unmasked; at the out-of-range operand 2048 the encoded word is
the raw 2048 and decodeModifier reads 1 instead of the modifier argument 0,
so the field layout only holds for operands up to 2047. -/
theorem c10_encode_unmasked_operand :
    2047 < 2048
    ∧ encodeInstruction 0 0 2048 = 2048
    ∧ decodeModifier (encodeInstruction 0 0 2048) = 1
    ∧ decodeModifier (encodeInstruction 0 0 2048) ≠ 0 := by
  refine ⟨by decide, ?_, ?_, ?_⟩ <;> decide

/- ================================================================
   Claim C8.
   ================================================================ -/

/-- The classification table exactly as claim C8 states it: JUMP with
operand > 0 (any modifier) or with operand 0 and modifier 0 (SKIP);
PUSH HANDLER/ELEMENT/CODE with operand > 0; POP HANDLER/COMPONENT with
operand 0; LOAD, STORE, INVOKE, EXECUTE with operand at least 1;
HANDLE EXCEPTION/RESULT with operand 0; every other combination invalid. -/
def claimC8Table (op md operand : Nat) : Bool :=
  if op = types.JUMP then
    decide (operand > 0) || (decide (operand = 0) && decide (md = 0))
  else if op = types.PUSH then
    decide (md = types.HANDLER ∨ md = types.ELEMENT ∨ md = types.CODE)
      && decide (operand > 0)
  else if op = types.POP then
    decide (md = types.HANDLER ∨ md = types.COMPONENT) && decide (operand = 0)
  else if op = types.LOAD ∨ op = types.STORE ∨ op = types.INVOKE ∨ op = types.EXECUTE then
    decide (1 ≤ operand)
  else if op = types.HANDLE then
    decide (md = types.EXCEPTION ∨ md = types.RESULT) && decide (operand = 0)
  else false

/-- C8: instructionIsValid on an encoded word agrees exactly with the
classification table of the claim, for every operation in [0,7], modifier
in [0,3] and operand in [0,2047]. -/
theorem c8_is_valid_matches_table :
    ∀ op < 8, ∀ md < 4, ∀ operand < 2048,
      instructionIsValid (encodeInstruction op md operand) = claimC8Table op md operand := by
  intro op hop md hmd operand hoperand
  obtain ⟨h1, h2, h3⟩ := decode_encodeInstruction op md operand hop hmd hoperand
  unfold instructionIsValid claimC8Table
  rw [h1, h2, h3]
  unfold types.JUMP types.PUSH types.POP types.LOAD types.STORE types.INVOKE
    types.EXECUTE types.HANDLE types.HANDLER types.ELEMENT types.CODE
    types.COMPONENT types.EXCEPTION types.RESULT
  interval_cases op <;> interval_cases md <;> simp <;> omega

/-- Witness for C8: the SKIP word (JUMP, modifier 0, operand 0) is valid,
matching the table. -/
theorem c8_is_valid_matches_table_witness :
    instructionIsValid (encodeInstruction 0 0 0) = claimC8Table 0 0 0 :=
  c8_is_valid_matches_table 0 (by decide) 0 (by decide) 0 (by decide)

/- ================================================================
   src/processor/VirtualMachine.js : data model.

   Values on the stacks belong to the external bali-primitive-types
   value domain; the constructors below cover the element kinds the
   processor actually touches (complex numbers, symbols, templates,
   references), and compare with the domain equality the source calls
   equalTo.
   ================================================================ -/

inductive BaliValue where
  | complex : Int → BaliValue
  | symbol : String → BaliValue
  | reference : String → BaliValue
  | templateNone : BaliValue
  | templateTrue : BaliValue
  | templateFalse : BaliValue
  deriving DecidableEq, Repr

/-- Status constant ACTIVE = the string since the source stores statuses
as strings. -/
def ACTIVE : String := "$active"

/-- Status constant WAITING. -/
def WAITING : String := "$waiting"

/-- Status constant DONE. -/
def DONE : String := "$done"

/-- The procedure context built by importProcedure: per-call activation
record.  bytecodeInstructions is the word array produced by
base16ToBytecode (one Nat per 16-bit word); nextAddress is the 1-based
instruction pointer, an Int because LOAD MESSAGE decrements it. -/
structure ProcedureContext where
  targetComponent : BaliValue
  typeReference : BaliValue
  procedureName : BaliValue
  parameterValues : List BaliValue
  literalValues : List BaliValue
  variableValues : List BaliValue
  bytecodeInstructions : List Nat
  nextAddress : Int
  currentInstruction : Nat
  deriving DecidableEq, Repr

/-- The task context built by importTask.  The head of each stack list is
the top of the LIFO.  result and exception start absent and are set by
HANDLE RESULT and HANDLE EXCEPTION. -/
structure TaskContext where
  taskTag : BaliValue
  accountTag : BaliValue
  accountBalance : Int
  processorStatus : String
  clockCycles : Int
  componentStack : List BaliValue
  handlerStack : List BaliValue
  procedureStack : List ProcedureContext
  result : Option BaliValue
  exception : Option BaliValue
  deriving DecidableEq, Repr

/-- The external collaborators reached through the BaliAPI environment and
the intrinsics table.  Each call is synchronous and pure from the
processor's perspective; intrinsicFunctions models the JavaScript array
(0-based slots, an out-of-range slot is undefined = none). -/
structure Env where
  retrieveByCitation : BaliValue → BaliValue
  receiveMessage : BaliValue → Option BaliValue
  commitReference : BaliValue → BaliValue → BaliValue
  intrinsicFunctions : Nat → Option (List BaliValue → BaliValue)

/-- The processor object returned by fromTask: the environment, the task
context, and the current procedure context (held outside the procedure
stack, as fromTask pops it off). -/
structure Processor where
  env : Env
  taskContext : TaskContext
  procedureContext : ProcedureContext

/-- Numeric value of a Bali element, as the source reads a Complex back as
an address; non-numeric values default to 0 (such a value never flows into
address arithmetic in any execution proved about here). -/
def complexToInt : BaliValue → Int
  | .complex n => n
  | _ => 0

/- ================================================================
   HANDLE EXCEPTION (src/processor/VirtualMachine.js lines 608-632).

   The inner while loop pops every address off the handler stack,
   assigning each in turn to nextAddress, so nextAddress ends at the
   bottom-most handler.  The outer while loop then pops the exception
   and the current frame and repeats until the procedure stack is
   empty.  The fuel of the helper is the procedure-stack length at
   entry: every iteration removes exactly one frame, so the loop runs
   at most that many times and the fuel-exhausted branch is never
   reached from handleException.
   ================================================================ -/

/-- One pass of the inner while loop draining the handler stack: returns
the final nextAddress (the last address popped) and the emptied stack. -/
def drainHandlerStack : Int → List BaliValue → Int × List BaliValue
  | next, [] => (next, [])
  | _, h :: rest => drainHandlerStack (complexToInt h) rest

def handleExceptionGo : Nat → TaskContext → ProcedureContext →
    Except String (TaskContext × ProcedureContext)
  | 0, t, pc => .ok (t, pc)
  | fuel + 1, t, pc =>
    match t.procedureStack with
    | [] => .ok (t, pc)
    | _ :: restFrames =>
      -- inner while: drain the handler stack into nextAddress
      let drained := drainHandlerStack pc.nextAddress t.handlerStack
      let pc1 := { pc with nextAddress := drained.1 }
      let t1 := { t with handlerStack := drained.2 }
      -- pop the current exception off of the component stack
      match t1.componentStack with
      | [] => .error "PROCESSOR: componentStack underflow"
      | exception :: restComponents =>
        -- pop the current procedure context off of the context stack
        let t2 := { t1 with componentStack := restComponents,
                            procedureStack := restFrames }
        match t2.procedureStack with
        | [] =>
          .ok ({ t2 with exception := some exception, processorStatus := DONE }, pc1)
        | top :: _ =>
          -- push the exception back for the enclosing frame and loop
          handleExceptionGo fuel
            { t2 with componentStack := exception :: t2.componentStack }
            top

/-- The HANDLE EXCEPTION instruction handler. -/
def handleException (t : TaskContext) (pc : ProcedureContext) :
    Except String (TaskContext × ProcedureContext) :=
  handleExceptionGo t.procedureStack.length t pc

/- ================================================================
   The 32-slot instruction handler table
   (src/processor/VirtualMachine.js lines 247-662), indexed by
   (operation << 2) | modifier.

   Conventions taken from the source and spec:
   - popItem on an empty stack is the external collection's underflow
     fault, which the spec declares fatal; it is modelled as an error.
   - getItem is 1-based, so getItem(index) reads list position index-1;
     an out-of-range index is the external collection's bounds fault,
     modelled as an error.
   - The handlers for LOAD DOCUMENT, STORE DRAFT, STORE DOCUMENT and
     STORE MESSAGE call the external repository; the repository calls
     are folded into Env and their external side effects are not
     observable on the processor state.
   - All four EXECUTE handlers call extractVariables, extractParameters
     or extractType on the processor object (or on the handler array
     itself via this), and fromTask defines no such methods, so every
     EXECUTE instruction faults in the source; they are modelled as
     errors.
   ================================================================ -/

def dispatch (p : Processor) (idx operand : Nat) : Except String Processor :=
  match idx with
  -- JUMP TO label
  | 0 =>
    if operand ≠ 0 then
      .ok { p with procedureContext :=
              { p.procedureContext with nextAddress := operand } }
    else
      .ok p
  -- JUMP TO label ON NONE
  | 1 =>
    if operand = 0 then
      .error "PROCESSOR: The current instruction has a zero address operand."
    else
      match p.taskContext.componentStack with
      | [] => .error "PROCESSOR: componentStack underflow"
      | condition :: rest =>
        let p1 := { p with taskContext :=
                      { p.taskContext with componentStack := rest } }
        if condition = BaliValue.templateNone then
          .ok { p1 with procedureContext :=
                  { p1.procedureContext with nextAddress := operand } }
        else
          .ok p1
  -- JUMP TO label ON TRUE
  | 2 =>
    if operand = 0 then
      .error "PROCESSOR: The current instruction has a zero address operand."
    else
      match p.taskContext.componentStack with
      | [] => .error "PROCESSOR: componentStack underflow"
      | condition :: rest =>
        let p1 := { p with taskContext :=
                      { p.taskContext with componentStack := rest } }
        if condition = BaliValue.templateTrue then
          .ok { p1 with procedureContext :=
                  { p1.procedureContext with nextAddress := operand } }
        else
          .ok p1
  -- JUMP TO label ON FALSE
  | 3 =>
    if operand = 0 then
      .error "PROCESSOR: The current instruction has a zero address operand."
    else
      match p.taskContext.componentStack with
      | [] => .error "PROCESSOR: componentStack underflow"
      | condition :: rest =>
        let p1 := { p with taskContext :=
                      { p.taskContext with componentStack := rest } }
        if condition = BaliValue.templateFalse then
          .ok { p1 with procedureContext :=
                  { p1.procedureContext with nextAddress := operand } }
        else
          .ok p1
  -- PUSH HANDLER label
  | 4 =>
    if operand = 0 then
      .error "PROCESSOR: The current instruction has a zero address operand."
    else
      .ok { p with taskContext := { p.taskContext with
              handlerStack := BaliValue.complex operand :: p.taskContext.handlerStack } }
  -- PUSH ELEMENT literal
  | 5 =>
    if operand = 0 then
      .error "PROCESSOR: The current instruction has a zero index operand."
    else
      match p.procedureContext.literalValues.get? (operand - 1) with
      | none => .error "PROCESSOR: invalid literal index"
      | some literal =>
        .ok { p with taskContext := { p.taskContext with
                componentStack := literal :: p.taskContext.componentStack } }
  -- PUSH CODE literal
  | 6 =>
    if operand = 0 then
      .error "PROCESSOR: The current instruction has a zero index operand."
    else
      match p.procedureContext.literalValues.get? (operand - 1) with
      | none => .error "PROCESSOR: invalid literal index"
      | some code =>
        .ok { p with taskContext := { p.taskContext with
                componentStack := code :: p.taskContext.componentStack } }
  -- UNIMPLEMENTED PUSH OPERATION
  | 7 => .error "An unimplemented PUSH operation was attempted: 13"
  -- POP HANDLER
  | 8 =>
    if operand ≠ 0 then
      .error "PROCESSOR: The current instruction has a non-zero operand."
    else
      match p.taskContext.handlerStack with
      | [] => .error "PROCESSOR: handlerStack underflow"
      | _ :: rest =>
        .ok { p with taskContext := { p.taskContext with handlerStack := rest } }
  -- POP COMPONENT
  | 9 =>
    if operand ≠ 0 then
      .error "PROCESSOR: The current instruction has a non-zero operand."
    else
      match p.taskContext.componentStack with
      | [] => .error "PROCESSOR: componentStack underflow"
      | _ :: rest =>
        .ok { p with taskContext := { p.taskContext with componentStack := rest } }
  -- UNIMPLEMENTED POP OPERATIONS
  | 10 => .error "An unimplemented POP operation was attempted: 22"
  | 11 => .error "An unimplemented POP operation was attempted: 23"
  -- LOAD VARIABLE symbol
  | 12 =>
    if operand = 0 then
      .error "PROCESSOR: The current instruction has a zero index operand."
    else
      match p.procedureContext.variableValues.get? (operand - 1) with
      | none => .error "PROCESSOR: invalid variable index"
      | some cell =>
        .ok { p with taskContext := { p.taskContext with
                componentStack := cell :: p.taskContext.componentStack } }
  -- LOAD PARAMETER symbol
  | 13 =>
    if operand = 0 then
      .error "PROCESSOR: The current instruction has a zero index operand."
    else
      match p.procedureContext.parameterValues.get? (operand - 1) with
      | none => .error "PROCESSOR: invalid parameter index"
      | some parameter =>
        .ok { p with taskContext := { p.taskContext with
                componentStack := parameter :: p.taskContext.componentStack } }
  -- LOAD DOCUMENT symbol
  | 14 =>
    if operand = 0 then
      .error "PROCESSOR: The current instruction has a zero index operand."
    else
      match p.procedureContext.variableValues.get? (operand - 1) with
      | none => .error "PROCESSOR: invalid variable index"
      | some reference =>
        let document := p.env.retrieveByCitation reference
        .ok { p with taskContext := { p.taskContext with
                componentStack := document :: p.taskContext.componentStack } }
  -- LOAD MESSAGE symbol
  | 15 =>
    if operand = 0 then
      .error "PROCESSOR: The current instruction has a zero index operand."
    else
      match p.procedureContext.variableValues.get? (operand - 1) with
      | none => .error "PROCESSOR: invalid variable index"
      | some queue =>
        match p.env.receiveMessage queue with
        | some message =>
          .ok { p with taskContext := { p.taskContext with
                  componentStack := message :: p.taskContext.componentStack } }
        | none =>
          -- set the task status to waiting and make sure that the same
          -- instruction will be tried again
          .ok { p with
                taskContext := { p.taskContext with processorStatus := WAITING },
                procedureContext := { p.procedureContext with
                  nextAddress := p.procedureContext.nextAddress - 1 } }
  -- STORE VARIABLE symbol
  | 16 =>
    if operand = 0 then
      .error "PROCESSOR: The current instruction has a zero index operand."
    else
      match p.taskContext.componentStack with
      | [] => .error "PROCESSOR: componentStack underflow"
      | component :: rest =>
        .ok { p with
              taskContext := { p.taskContext with componentStack := rest },
              procedureContext := { p.procedureContext with
                variableValues := p.procedureContext.variableValues.set (operand - 1) component } }
  -- STORE DRAFT symbol
  | 17 =>
    if operand = 0 then
      .error "PROCESSOR: The current instruction has a zero index operand."
    else
      match p.taskContext.componentStack with
      | [] => .error "PROCESSOR: componentStack underflow"
      | _ :: rest =>
        match p.procedureContext.variableValues.get? (operand - 1) with
        | none => .error "PROCESSOR: invalid variable index"
        | some _ =>
          -- the draft is written to the external repository
          .ok { p with taskContext := { p.taskContext with componentStack := rest } }
  -- STORE DOCUMENT symbol
  | 18 =>
    if operand = 0 then
      .error "PROCESSOR: The current instruction has a zero index operand."
    else
      match p.taskContext.componentStack with
      | [] => .error "PROCESSOR: componentStack underflow"
      | document :: rest =>
        match p.procedureContext.variableValues.get? (operand - 1) with
        | none => .error "PROCESSOR: invalid variable index"
        | some reference =>
          let citation := p.env.commitReference reference document
          .ok { p with
                taskContext := { p.taskContext with componentStack := rest },
                procedureContext := { p.procedureContext with
                  variableValues := p.procedureContext.variableValues.set (operand - 1) citation } }
  -- STORE MESSAGE symbol
  | 19 =>
    if operand = 0 then
      .error "PROCESSOR: The current instruction has a zero index operand."
    else
      match p.taskContext.componentStack with
      | [] => .error "PROCESSOR: componentStack underflow"
      | _ :: rest =>
        match p.procedureContext.variableValues.get? (operand - 1) with
        | none => .error "PROCESSOR: invalid variable index"
        | some _ =>
          -- the message is sent to the external queue
          .ok { p with taskContext := { p.taskContext with componentStack := rest } }
  -- INVOKE symbol
  | 20 =>
    if operand = 0 then
      .error "PROCESSOR: The current instruction has a zero index operand."
    else
      match p.env.intrinsicFunctions operand with
      | none => .error "TypeError: intrinsic function is undefined"
      | some f =>
        .ok { p with taskContext := { p.taskContext with
                componentStack := f [] :: p.taskContext.componentStack } }
  -- INVOKE symbol WITH PARAMETER
  | 21 =>
    if operand = 0 then
      .error "PROCESSOR: The current instruction has a zero index operand."
    else
      match p.taskContext.componentStack with
      | [] => .error "PROCESSOR: componentStack underflow"
      | a :: rest =>
        match p.env.intrinsicFunctions operand with
        | none => .error "TypeError: intrinsic function is undefined"
        | some f =>
          .ok { p with taskContext := { p.taskContext with
                  componentStack := f [a] :: rest } }
  -- INVOKE symbol WITH 2 PARAMETERS
  | 22 =>
    if operand = 0 then
      .error "PROCESSOR: The current instruction has a zero index operand."
    else
      match p.taskContext.componentStack with
      | a :: b :: rest =>
        match p.env.intrinsicFunctions operand with
        | none => .error "TypeError: intrinsic function is undefined"
        | some f =>
          .ok { p with taskContext := { p.taskContext with
                  componentStack := f [a, b] :: rest } }
      | _ => .error "PROCESSOR: componentStack underflow"
  -- INVOKE symbol WITH 3 PARAMETERS
  | 23 =>
    if operand = 0 then
      .error "PROCESSOR: The current instruction has a zero index operand."
    else
      match p.taskContext.componentStack with
      | a :: b :: c :: rest =>
        match p.env.intrinsicFunctions operand with
        | none => .error "TypeError: intrinsic function is undefined"
        | some f =>
          .ok { p with taskContext := { p.taskContext with
                  componentStack := f [a, b, c] :: rest } }
      | _ => .error "PROCESSOR: componentStack underflow"
  -- EXECUTE handlers: fromTask defines no extractVariables,
  -- extractParameters or extractType, so each of these throws in the
  -- source before completing
  | 24 => .error "TypeError: processor.extractVariables is not a function"
  | 25 => .error "TypeError: this.extractParameters is not a function"
  | 26 => .error "TypeError: this.extractType is not a function"
  | 27 => .error "TypeError: this.extractType is not a function"
  -- HANDLE EXCEPTION
  | 28 =>
    if operand ≠ 0 then
      .error "PROCESSOR: The current instruction has a non-zero operand."
    else
      match handleException p.taskContext p.procedureContext with
      | .error e => .error e
      | .ok (t, pc) => .ok { p with taskContext := t, procedureContext := pc }
  -- HANDLE RESULT
  | 29 =>
    if operand ≠ 0 then
      .error "PROCESSOR: The current instruction has a non-zero operand."
    else
      match p.taskContext.componentStack with
      | [] => .error "PROCESSOR: componentStack underflow"
      | result :: restComponents =>
        match p.taskContext.procedureStack with
        | [] => .error "PROCESSOR: procedureStack underflow"
        | _ :: restFrames =>
          match restFrames with
          | [] =>
            .ok { p with taskContext := { p.taskContext with
                    componentStack := restComponents,
                    procedureStack := [],
                    result := some result,
                    processorStatus := DONE } }
          | top :: _ =>
            .ok { p with
                  taskContext := { p.taskContext with
                    componentStack := result :: restComponents,
                    procedureStack := restFrames },
                  procedureContext := top }
  -- UNIMPLEMENTED HANDLE OPERATIONS
  | 30 => .error "An unimplemented HANDLE operation was attempted: 72"
  | 31 => .error "An unimplemented HANDLE operation was attempted: 73"
  -- indices above 31 cannot arise from a 16-bit word; a JavaScript read
  -- past the table end would be undefined and throw on call
  | _ => .error "TypeError: instruction handler is undefined"

/- ================================================================
   The processor loop (src/processor/VirtualMachine.js lines 50-119).
   ================================================================ -/

/-- isRunnable: note that the source compares nextAddress * 4 against the
length of bytecodeInstructions, which importProcedure builds as an array
of 16-bit words (one entry per word).  The truthiness test on
procedureContext always passes here since the context exists. -/
def isRunnable (p : Processor) : Bool :=
  let hasInstructions :=
    decide (p.procedureContext.nextAddress * 4
      ≤ (p.procedureContext.bytecodeInstructions.length : Int))
  let isActive := p.taskContext.processorStatus == ACTIVE
  let hasTokens := decide (0 < p.taskContext.accountBalance)
  hasInstructions && isActive && hasTokens

/-- fetchInstruction: reads the word at the 1-based nextAddress into
currentInstruction when the processor is runnable.  A JavaScript
out-of-range array read yields undefined, and each decode maps undefined
to 0, so such a read is modelled as the word 0. -/
def fetchInstruction (p : Processor) : Option Processor :=
  if isRunnable p then
    let nextAddress := p.procedureContext.nextAddress
    let currentInstruction :=
      if nextAddress < 1 then 0
      else (p.procedureContext.bytecodeInstructions.get? (nextAddress - 1).toNat).getD 0
    some { p with procedureContext :=
             { p.procedureContext with currentInstruction := currentInstruction } }
  else
    none

/-- executeInstruction: decodes currentInstruction, dispatches on
(operation << 2) | modifier, then unconditionally increments clockCycles,
decrements accountBalance and increments nextAddress. -/
def executeInstruction (p : Processor) : Except String Processor :=
  let instruction := p.procedureContext.currentInstruction
  let operation := decodeOperation instruction
  let modifier := decodeModifier instruction
  let operand := decodeOperand instruction
  let index := (operation <<< 2) ||| modifier
  match dispatch p index operand with
  | .error e => .error e
  | .ok q =>
    .ok { q with
          taskContext := { q.taskContext with
            clockCycles := q.taskContext.clockCycles + 1,
            accountBalance := q.taskContext.accountBalance - 1 },
          procedureContext := { q.procedureContext with
            nextAddress := q.procedureContext.nextAddress + 1 } }

/-- step: fetch, and execute only when something was fetched. -/
def step (p : Processor) : Except String Processor :=
  match fetchInstruction p with
  | some p1 => executeInstruction p1
  | none => .ok p

/-- run: the while loop fetching and executing until the processor is no
longer runnable, bounded by fuel.  Each executed instruction decrements
accountBalance, and isRunnable requires a positive balance, so any fuel
of at least the starting balance makes the fuel bound unreachable.
finalizeProcessing only publishes events or queues the exported task, so
the processor state is returned unchanged when the loop exits. -/
def runFor : Nat → Processor → Except String Processor
  | 0, p => .ok p
  | fuel + 1, p =>
    match fetchInstruction p with
    | none => .ok p
    | some p1 =>
      match executeInstruction p1 with
      | .error e => .error e
      | .ok p2 => runFor fuel p2

/- ================================================================
   src/bvm/VirtualMachine.js INVOKE (modifier 0), lines 353-362, for
   comparison with the processor dispatch (slot 20 above): the bvm
   subtracts one from the operand before indexing the JavaScript
   intrinsic array (js zero based indexing comment in the source),
   while the processor indexes with the raw operand.
   ================================================================ -/

def bvmInvoke0 (intrinsics : Nat → Option (List BaliValue → BaliValue))
    (operand : Nat) (components : List BaliValue) :
    Except String (List BaliValue) :=
  match intrinsics (operand - 1) with
  | none => .error "TypeError: intrinsic function is undefined"
  | some f => .ok (f [] :: components)

/- ================================================================
   Shared concrete fixtures.
   ================================================================ -/

/-- An environment with empty queues and no intrinsic slots. -/
def emptyEnv : Env :=
  { retrieveByCitation := fun _ => BaliValue.templateNone
    receiveMessage := fun _ => none
    commitReference := fun _ _ => BaliValue.templateNone
    intrinsicFunctions := fun _ => none }

/-- A frame over the given bytecode word array, fresh from
importProcedure: nextAddress 1, no literals, variables or parameters. -/
def mkFrame (bc : List Nat) : ProcedureContext :=
  { targetComponent := BaliValue.templateNone
    typeReference := BaliValue.reference "bali:/test/Type"
    procedureName := BaliValue.symbol "$test"
    parameterValues := []
    literalValues := []
    variableValues := []
    bytecodeInstructions := bc
    nextAddress := 1
    currentInstruction := 0 }

/-- A task context with balance 10, ACTIVE status and empty stacks. -/
def mkTask : TaskContext :=
  { taskTag := BaliValue.symbol "$task"
    accountTag := BaliValue.symbol "$account"
    accountBalance := 10
    processorStatus := ACTIVE
    clockCycles := 0
    componentStack := []
    handlerStack := []
    procedureStack := []
    result := none
    exception := none }

/- ================================================================
   Claim C9.
   ================================================================ -/

/-- An intrinsic table whose slot i returns the complex number i, so the
chosen slot is visible in the result. -/
def slotTaggingIntrinsics : Nat → Option (List BaliValue → BaliValue) :=
  fun i => some (fun _ => BaliValue.complex i)

def c9Processor : Processor :=
  { env := { emptyEnv with intrinsicFunctions := slotTaggingIntrinsics }
    taskContext := mkTask
    procedureContext := mkFrame [] }

/-- C9 (code bug): for INVOKE with operand 1, the processor dispatch
(slot index 20 = INVOKE modifier 0) calls the intrinsic in JavaScript
array slot 1 while the bvm implementation calls slot 0 — entry 1 of the
spec's 1-based table — so the two VMs invoke different intrinsics for
the same instruction. -/
theorem c9_invoke_dispatch_differs :
    (dispatch c9Processor 20 1).map (fun q => q.taskContext.componentStack)
      = .ok [BaliValue.complex 1]
    ∧ bvmInvoke0 slotTaggingIntrinsics 1 [] = .ok [BaliValue.complex 0]
    ∧ BaliValue.complex 1 ≠ BaliValue.complex 0 := by
  refine ⟨rfl, rfl, by decide⟩

/- ================================================================
   Claim C1.
   ================================================================ -/

/-- Failing input for C1: the current frame (also on the procedure stack,
as EXECUTE leaves it), two installed handler addresses with 4 on top and
9 below, and the raised exception on top of the component stack. -/
def c1Frame : ProcedureContext :=
  mkFrame [encodeInstruction types.HANDLE types.EXCEPTION 0]

def c1Task : TaskContext :=
  { mkTask with
    componentStack := [BaliValue.symbol "$boom"]
    handlerStack := [BaliValue.complex 4, BaliValue.complex 9]
    procedureStack := [c1Frame] }

/-- C1 (code bug): executing HANDLE EXCEPTION with a non-empty handler
stack drains every handler address (nextAddress ends at the bottom
handler 9, not the top handler 4), removes the exception from the
component stack, pops the current frame and terminates the task with
status DONE and the exception recorded — instead of popping exactly one
handler, leaving the exception on the stack, keeping the frame and
resuming. -/
theorem c1_handle_exception_unwinds_everything :
    (handleException c1Task c1Frame).map
      (fun r => (r.1.processorStatus, r.1.procedureStack.length, r.1.handlerStack,
                 r.1.componentStack, r.1.exception, r.2.nextAddress))
    = .ok (DONE, 0, [], [], some (BaliValue.symbol "$boom"), 9) := rfl

/- ================================================================
   Claim C2.
   ================================================================ -/

/-- The S2 bytecode: [encode(JUMP,0,3), 0xFFFF, encode(HANDLE,RESULT,0)]. -/
def c2Bytecode : List Nat :=
  [encodeInstruction types.JUMP 0 3, 0xFFFF,
   encodeInstruction types.HANDLE types.RESULT 0]

def c2Frame : ProcedureContext := mkFrame c2Bytecode

def c2Processor : Processor :=
  { env := emptyEnv
    taskContext := { mkTask with
      componentStack := [BaliValue.symbol "$value"]
      procedureStack := [c2Frame] }
    procedureContext := c2Frame }

/-- The same scenario padded with 9 SKIP words so that the runnability
guard admits the first instruction. -/
def c2PaddedFrame : ProcedureContext :=
  mkFrame (c2Bytecode ++ List.replicate 9 0)

def c2PaddedProcessor : Processor :=
  { env := emptyEnv
    taskContext := { mkTask with
      componentStack := [BaliValue.symbol "$value"]
      procedureStack := [c2PaddedFrame] }
    procedureContext := c2PaddedFrame }

/-- C2 (code bug): on the S2 bytecode the processor never reaches address
3 and never terminates DONE.  With the three-word program, isRunnable
compares nextAddress * 4 = 4 against the 3-entry word array, so run()
executes nothing at all and leaves the task ACTIVE with the result unset.
Even with the program padded so the guard admits the jump, the
unconditional post-increment of nextAddress after the JUMP handler turns
the stored target 3 into 4, so the HANDLE RESULT at address 3 is skipped
and the run stops with the task still ACTIVE after one clock cycle. -/
theorem c2_jump_scenario_never_completes :
    runFor 20 c2Processor = .ok c2Processor
    ∧ isRunnable c2Processor = false
    ∧ c2Processor.procedureContext.nextAddress = 1
    ∧ c2Processor.procedureContext.bytecodeInstructions.length = 3
    ∧ c2Processor.taskContext.processorStatus = ACTIVE
    ∧ c2Processor.taskContext.result = none
    ∧ (runFor 20 c2PaddedProcessor).map
        (fun p => (p.taskContext.processorStatus, p.taskContext.result,
                   p.taskContext.clockCycles, p.procedureContext.nextAddress))
      = .ok (ACTIVE, none, 1, 4) := by
  refine ⟨rfl, rfl, rfl, rfl, rfl, rfl, rfl⟩

/- ================================================================
   Claim C3.
   ================================================================ -/

/-- Failing input for C3: a one-word program (SKIP), nextAddress 1, ACTIVE
status and a positive balance: runnable according to the claim, yet
isRunnable is false since 1 * 4 exceeds the single-entry word array. -/
def c3Processor : Processor :=
  { env := emptyEnv
    taskContext := mkTask
    procedureContext := mkFrame [0x0000] }

/-- C3 (code bug): the task is ACTIVE, has a positive balance and
nextAddress within the bytecode, so the claim says the next instruction
is fetched and executed; but isRunnable multiplies nextAddress by 4
before comparing against the length of the word array (a leftover from
indexing 4-character base-16 strings), so nothing is fetched and step
returns the state unchanged. -/
theorem c3_runnable_guard_rejects_runnable_task :
    c3Processor.taskContext.processorStatus = ACTIVE
    ∧ 0 < c3Processor.taskContext.accountBalance
    ∧ c3Processor.procedureContext.nextAddress
        ≤ (c3Processor.procedureContext.bytecodeInstructions.length : Int)
    ∧ isRunnable c3Processor = false
    ∧ fetchInstruction c3Processor = none
    ∧ step c3Processor = .ok c3Processor := by
  refine ⟨rfl, by decide, by decide, rfl, rfl, rfl⟩

/- ================================================================
   Claim C4.
   ================================================================ -/

/-- C4: after executing LOAD MESSAGE against an empty queue, the status is
WAITING and nextAddress is back at its pre-execution value (the handler
decrements it and the dispatcher increments it), so the same instruction
is retried on resume. -/
theorem c4_load_message_empty_queue (p : Processor) (queue : BaliValue)
    (hop : decodeOperation p.procedureContext.currentInstruction = types.LOAD)
    (hmd : decodeModifier p.procedureContext.currentInstruction = types.MESSAGE)
    (hoperand : decodeOperand p.procedureContext.currentInstruction ≠ 0)
    (hqueue : p.procedureContext.variableValues.get?
        (decodeOperand p.procedureContext.currentInstruction - 1) = some queue)
    (hempty : p.env.receiveMessage queue = none) :
    ∃ p1, executeInstruction p = .ok p1
      ∧ p1.taskContext.processorStatus = WAITING
      ∧ p1.procedureContext.nextAddress = p.procedureContext.nextAddress := by
  have hidx : (decodeOperation p.procedureContext.currentInstruction <<< 2) |||
      decodeModifier p.procedureContext.currentInstruction = 15 := by
    rw [hop, hmd]; rfl
  unfold executeInstruction
  dsimp only
  rw [hidx]
  unfold dispatch
  dsimp only
  rw [if_neg hoperand, hqueue]
  dsimp only
  rw [hempty]
  refine ⟨_, rfl, rfl, ?_⟩
  dsimp only
  omega

/-- Witness processor for C4: a one-instruction program LOAD MESSAGE 1,
variable 1 holding a queue reference, all queues empty. -/
def c4Processor : Processor :=
  { env := emptyEnv
    taskContext := mkTask
    procedureContext :=
      { mkFrame [encodeInstruction types.LOAD types.MESSAGE 1] with
        variableValues := [BaliValue.reference "bali:/queue/v1"]
        currentInstruction := encodeInstruction types.LOAD types.MESSAGE 1 } }

/-- Witness for C4 at the concrete waiting scenario. -/
theorem c4_load_message_empty_queue_witness :
    ∃ p1, executeInstruction c4Processor = .ok p1
      ∧ p1.taskContext.processorStatus = WAITING
      ∧ p1.procedureContext.nextAddress = c4Processor.procedureContext.nextAddress :=
  c4_load_message_empty_queue c4Processor (BaliValue.reference "bali:/queue/v1")
    (by decide) (by decide) (by decide) rfl rfl

/- ================================================================
   Claim C5: accounting lemmas.
   ================================================================ -/

/-- The exception-unwinding loop never touches the account balance or the
clock cycle counter. -/
theorem handleExceptionGo_counters (fuel : Nat) :
    ∀ (t : TaskContext) (pc : ProcedureContext) (t1 : TaskContext)
      (pc1 : ProcedureContext), handleExceptionGo fuel t pc = .ok (t1, pc1) →
      t1.accountBalance = t.accountBalance ∧ t1.clockCycles = t.clockCycles := by
  induction fuel with
  | zero =>
    intro t pc t1 pc1 h
    simp only [handleExceptionGo] at h
    cases h
    exact ⟨rfl, rfl⟩
  | succ n ih =>
    intro t pc t1 pc1 h
    simp only [handleExceptionGo] at h
    split at h
    · cases h; exact ⟨rfl, rfl⟩
    · split at h
      · cases h
      · split at h
        · cases h; exact ⟨rfl, rfl⟩
        · have H := ih _ _ _ _ h
          exact ⟨H.1, H.2⟩

/-- No instruction handler touches the account balance or the clock cycle
counter; only the dispatcher updates them. -/
theorem dispatch_counters (p : Processor) (idx operand : Nat) (q : Processor)
    (h : dispatch p idx operand = .ok q) :
    q.taskContext.accountBalance = p.taskContext.accountBalance
    ∧ q.taskContext.clockCycles = p.taskContext.clockCycles := by
  unfold dispatch at h
  split at h <;> try (repeat' split at h) <;> try cases h <;> try exact ⟨rfl, rfl⟩
  next t pc heq =>
    exact handleExceptionGo_counters _ _ _ _ _ heq

/-- A successful fetch leaves the task context untouched (only
currentInstruction changes) and certifies runnability. -/
theorem fetchInstruction_facts (p p1 : Processor)
    (h : fetchInstruction p = some p1) :
    isRunnable p = true ∧ p1.taskContext = p.taskContext := by
  unfold fetchInstruction at h
  split at h
  · next hr => cases h; exact ⟨hr, rfl⟩
  · cases h

/-- A runnable processor has a strictly positive account balance. -/
theorem isRunnable_pos_balance (p : Processor) (h : isRunnable p = true) :
    0 < p.taskContext.accountBalance := by
  unfold isRunnable at h
  simp only [Bool.and_eq_true, decide_eq_true_eq] at h
  exact h.2

/-- C5: each executed instruction decrements the account balance by
exactly 1 and increments the clock cycle count by exactly 1; since
execution only happens after a successful fetch, which requires a
positive balance, the balance never goes negative; and at balance 0 the
step function returns the state — status included — unchanged. -/
theorem c5_gas_accounting (p p1 q : Processor)
    (hf : fetchInstruction p = some p1) (he : executeInstruction p1 = .ok q) :
    q.taskContext.accountBalance = p.taskContext.accountBalance - 1
    ∧ q.taskContext.clockCycles = p.taskContext.clockCycles + 1
    ∧ 0 ≤ q.taskContext.accountBalance
    ∧ ∀ r : Processor, r.taskContext.accountBalance = 0 → step r = .ok r := by
  obtain ⟨hrun, htask⟩ := fetchInstruction_facts p p1 hf
  have hpos : 0 < p.taskContext.accountBalance := isRunnable_pos_balance p hrun
  unfold executeInstruction at he
  dsimp only at he
  split at he
  · cases he
  · next q0 heq =>
    cases he
    obtain ⟨h1, h2⟩ := dispatch_counters p1 _ _ q0 heq
    have hstop : ∀ r : Processor, r.taskContext.accountBalance = 0 → step r = .ok r := by
      intro r hr
      have hnot : isRunnable r = false := by
        unfold isRunnable
        simp [hr]
      unfold step fetchInstruction
      rw [hnot]
      simp
    refine ⟨?_, ?_, ?_, hstop⟩
    · simp only [h1, htask]
    · simp only [h2, htask]
    · simp only [h1, htask]
      omega

/-- Witness processor for C5: four SKIP words so the runnability guard
admits address 1. -/
def c5Processor : Processor :=
  { env := emptyEnv
    taskContext := mkTask
    procedureContext := mkFrame [0, 0, 0, 0] }

/-- The fetched state of the C5 witness. -/
def c5Fetched : Processor := (fetchInstruction c5Processor).getD c5Processor

/-- The executed state of the C5 witness. -/
def c5Executed : Processor :=
  ((executeInstruction c5Fetched).toOption).getD c5Fetched

/-- Witness for C5: one executed SKIP takes the balance from 10 to 9 and
the cycle count from 0 to 1. -/
theorem c5_gas_accounting_witness :
    fetchInstruction c5Processor = some c5Fetched
    ∧ executeInstruction c5Fetched = .ok c5Executed
    ∧ c5Executed.taskContext.accountBalance
        = c5Processor.taskContext.accountBalance - 1
    ∧ c5Executed.taskContext.clockCycles
        = c5Processor.taskContext.clockCycles + 1
    ∧ 0 ≤ c5Executed.taskContext.accountBalance := by
  have h := c5_gas_accounting c5Processor c5Fetched c5Executed rfl rfl
  exact ⟨rfl, rfl, h.1, h.2.1, h.2.2.1⟩

/- ================================================================
   Claim C6: task export and import round-trip.

   Modelled from the spec: the Catalog component store of
   bali-primitive-types is outside this repository.  Per the spec, a
   task document is a catalog of the named fields, values are stored as
   document components, numbers are read back with toNumber and the
   status element with toSource, and exporting inverts the mapping.
   The field lists themselves are translated from importTask
   (src/processor/VirtualMachine.js lines 190-201) and exportTask
   (lines 207-210).
   ================================================================ -/

/-- Modelled from the spec: a value as stored in a task document catalog:
a number element (read back with toNumber), a source-rendered element
(read back with toSource), an opaque component, a stack of components, or
a stack of procedure contexts, the latter three stored and read back
without conversion, as importTask applies none. -/
inductive DocValue where
  | num : Int → DocValue
  | src : String → DocValue
  | comp : BaliValue → DocValue
  | stackVal : List BaliValue → DocValue
  | frames : List ProcedureContext → DocValue
  deriving DecidableEq

/-- Modelled from the spec: catalog lookup by field name ($-prefixed). -/
def getValue (doc : List (String × DocValue)) (key : String) : Option DocValue :=
  (doc.find? (fun kv => kv.1 = key)).map (fun kv => kv.2)

/-- The toNumber read of a stored document value. -/
def docToNumber : DocValue → Option Int
  | .num n => some n
  | _ => none

/-- The toSource read of a stored document value. -/
def docToSource : DocValue → Option String
  | .src s => some s
  | _ => none

/-- An unconverted component read of a stored document value. -/
def docComponent : DocValue → Option BaliValue
  | .comp v => some v
  | _ => none

/-- An unconverted stack read of a stored document value. -/
def docStack : DocValue → Option (List BaliValue)
  | .stackVal s => some s
  | _ => none

/-- An unconverted procedure-stack read of a stored document value. -/
def docFrames : DocValue → Option (List ProcedureContext)
  | .frames s => some s
  | _ => none

/-- exportTask: Catalog.fromCollection(taskContext) enumerates the task
context fields in property order; result and exception only exist as
properties once set. -/
def exportTask (t : TaskContext) : List (String × DocValue) :=
  [("$taskTag", DocValue.comp t.taskTag),
   ("$accountTag", DocValue.comp t.accountTag),
   ("$accountBalance", DocValue.num t.accountBalance),
   ("$processorStatus", DocValue.src t.processorStatus),
   ("$clockCycles", DocValue.num t.clockCycles),
   ("$componentStack", DocValue.stackVal t.componentStack),
   ("$handlerStack", DocValue.stackVal t.handlerStack),
   ("$procedureStack", DocValue.frames t.procedureStack)]
  ++ (match t.result with
      | some r => [("$result", DocValue.comp r)]
      | none => [])
  ++ (match t.exception with
      | some e => [("$exception", DocValue.comp e)]
      | none => [])

/-- importTask: reads the eight named fields, converting the balance and
cycle count with toNumber and the status with toSource; result and
exception are not read, so the imported context starts without them. -/
def importTask (doc : List (String × DocValue)) : Option TaskContext := do
  let taskTag ← (getValue doc "$taskTag").bind docComponent
  let accountTag ← (getValue doc "$accountTag").bind docComponent
  let accountBalance ← (getValue doc "$accountBalance").bind docToNumber
  let processorStatus ← (getValue doc "$processorStatus").bind docToSource
  let clockCycles ← (getValue doc "$clockCycles").bind docToNumber
  let componentStack ← (getValue doc "$componentStack").bind docStack
  let handlerStack ← (getValue doc "$handlerStack").bind docStack
  let procedureStack ← (getValue doc "$procedureStack").bind docFrames
  pure { taskTag := taskTag, accountTag := accountTag,
         accountBalance := accountBalance, processorStatus := processorStatus,
         clockCycles := clockCycles, componentStack := componentStack,
         handlerStack := handlerStack, procedureStack := procedureStack,
         result := none, exception := none }

/-- C6: exporting any task context to a document and importing the result
succeeds and restores taskTag, accountTag, accountBalance,
processorStatus, clockCycles, componentStack, handlerStack and
procedureStack (each frame passing through unchanged, bytecode and
nextAddress included). -/
theorem c6_task_round_trip (t : TaskContext) :
    ∃ t1, importTask (exportTask t) = some t1
      ∧ t1.taskTag = t.taskTag
      ∧ t1.accountTag = t.accountTag
      ∧ t1.accountBalance = t.accountBalance
      ∧ t1.processorStatus = t.processorStatus
      ∧ t1.clockCycles = t.clockCycles
      ∧ t1.componentStack = t.componentStack
      ∧ t1.handlerStack = t.handlerStack
      ∧ t1.procedureStack = t.procedureStack := by
  obtain ⟨tag, atag, bal, st, cc, cs, hs, ps, res, exc⟩ := t
  refine ⟨{ taskTag := tag, accountTag := atag, accountBalance := bal,
            processorStatus := st, clockCycles := cc, componentStack := cs,
            handlerStack := hs, procedureStack := ps,
            result := none, exception := none },
          ?_, rfl, rfl, rfl, rfl, rfl, rfl, rfl, rfl⟩
  cases res <;> cases exc <;> rfl
